import Mathlib

/-!
Verification of the endless-runner simulation engine (GameCanvas component and
helpers). The definitions below are a shallow embedding of the game-logic
portions of the source: the lane-change rule, the obstacle spawn tables, the
per-frame collision/resolution loop of `animate`, the segment recycling loop,
and the frame-delta clamping. JavaScript numbers are modelled as rationals,
with a separate `JSNum` type where NaN/infinity behaviour matters.
-/

namespace RunningBird

/-- The four track topologies (`GamePhase` in types.ts). -/
inductive GamePhase
  | FLAT
  | ROUND
  | TUNNEL_GLOWING
  | TUNNEL_CLEAN
  deriving DecidableEq, Repr

/-- The session states (`GameState` in types.ts). -/
inductive GameState
  | MENU
  | PLAYING
  | PAUSED
  | GAME_OVER
  | LEVEL_COMPLETE
  deriving DecidableEq, Repr

/-- The ten obstacle type tags (`ObstacleType` enum in the game component). -/
inductive ObstacleType
  | SIMPLE
  | WALL
  | INSTA_DEATH
  | BULLET
  | DOOR
  | BALL
  | HEART
  | SPEED_BOOST
  | CLOCK_BLUE
  | EXTRUDING
  deriving DecidableEq, Repr

-- Constants from the source (`const` declarations at the top of the component).
def SPEED_BASE : ℚ := 16

def JUMP_FORCE : ℚ := 40

def GRAVITY : ℚ := -155

def LANE_WIDTH : ℚ := 3

def SEGMENT_LENGTH : ℚ := 8

def MAX_HEALTH : ℤ := 100

def PHASE_DURATION : ℚ := 60

def LANE_COUNT_FLAT : ℤ := 7

def LANE_COUNT_ROUND : ℤ := 12

/-- JavaScript `Math.round` on a finite number: floor of x + 1/2 (ties toward
positive infinity, matching JS semantics). -/
def jsRound (q : ℚ) : ℤ := ⌊q + 1/2⌋

/-- A JavaScript number as needed to model the frame-delta computation:
NaN, the two infinities, or a finite value (modelled as a rational). -/
inductive JSNum
  | nan
  | posInf
  | negInf
  | fin (q : ℚ)
  deriving DecidableEq, Repr

/-- JS `isNaN`. -/
def JSNum.isNaNum : JSNum → Bool
  | .nan => true
  | _ => false

/-- JS comparison `x > c` for a JSNum `x` against a finite constant `c`:
false whenever `x` is NaN, true for +infinity, false for -infinity. -/
def JSNum.gtQ : JSNum → ℚ → Bool
  | .nan, _ => false
  | .posInf, _ => true
  | .negInf, _ => false
  | .fin a, c => decide (c < a)

/-- The frame-delta guard in `animate`:
`if (isNaN(delta) || delta > 0.1) delta = 0.1;`. -/
def clampDelta (d : JSNum) : JSNum :=
  if d.isNaNum || d.gtQ (1/10) then .fin (1/10) else d

/-- The cumulative-probability obstacle type selection in `spawnObstacle`
(`const r = Math.random(); if (r > 0.95) ... else SIMPLE`). -/
def chooseType (r : ℚ) : ObstacleType :=
  if r > 95/100 then .HEART
  else if r > 90/100 then .SPEED_BOOST
  else if r > 85/100 then .CLOCK_BLUE
  else if r > 75/100 then .BULLET
  else if r > 65/100 then .EXTRUDING
  else if r > 55/100 then .WALL
  else if r > 40/100 then .DOOR
  else if r > 25/100 then .BALL
  else .SIMPLE

/-- Collision width stored at spawn: `let collisionWidth = 1.0;` overridden to
`2.0` only in the DOOR branch of `spawnObstacle`. -/
def collisionWidthOf (t : ObstacleType) : ℚ :=
  if t = .DOOR then 2 else 1

/-- Lane selection in `spawnObstacle`:
`Math.floor(Math.random()*LANE_COUNT_FLAT) - 3` on FLAT,
`Math.floor(Math.random()*LANE_COUNT_ROUND)` otherwise. -/
def laneOf (phase : GamePhase) (r : ℚ) : ℤ :=
  if phase = .FLAT then ⌊r * 7⌋ - 3 else ⌊r * 12⌋

/-- Sub-slot selection in `spawnObstacle`: `Math.floor(Math.random() * 4)`. -/
def tileRowOf (r : ℚ) : ℤ := ⌊r * 4⌋

/-- Longitudinal offset of a spawned obstacle within its segment:
`(tileRow * LANE_WIDTH) + (LANE_WIDTH/2)`. -/
def obstacleZPos (r : ℚ) : ℚ := (tileRowOf r : ℚ) * LANE_WIDTH + LANE_WIDTH / 2

/-- The logical fields of an `ObstacleData` record pushed by `spawnObstacle`
(mesh and visual params omitted; `vertical` is the `params.vertical` field). -/
structure ObstacleData where
  type : ObstacleType
  lane : ℤ
  width : ℚ
  exploded : Bool
  vertical : Bool
  deriving DecidableEq, Repr

/-- The record pushed at the end of `spawnObstacle`: `exploded: false` and
`params: { ..., vertical: false, ... }` for every obstacle type. -/
def spawnObstacleData (t : ObstacleType) (lane : ℤ) : ObstacleData :=
  { type := t, lane := lane, width := collisionWidthOf t,
    exploded := false, vertical := false }

/-- The player lane used by the collision check in `animate`:
`let pLane = Math.round(currentLane.current);` wrapped into [0,12) only when
the phase is ROUND (`if (pLane < 0) pLane += 12; pLane = pLane % 12;`,
where `%` is the JS sign-of-dividend remainder, i.e. `Int.tmod`). -/
def pLaneFor (phase : GamePhase) (cur : ℚ) : ℤ :=
  let p := jsRound cur
  if phase = .ROUND then
    let p1 := if p < 0 then p + 12 else p
    Int.tmod p1 12
  else p

/-- One execution of the body of the per-obstacle collision loop in `animate`
for a single obstacle: the early `exploded` return, the passed-by check
(`distZ > 2`, removal at `distZ > 10`), the collision band `|distZ| < 1.2`,
the lane equality check, and the vertical-clearance check
(`jH > obsHeight && !obs.params.vertical` with `obsHeight = 1.5`).
Returns the updated obstacle and the obstacle type whose resolution effect
fired this tick, if any. -/
def obstacleStep (phase : GamePhase) (cur jH distZ : ℚ) (obs : ObstacleData) :
    ObstacleData × Option ObstacleType :=
  if obs.exploded then (obs, none)
  else if distZ > 2 then
    if distZ > 10 then ({ obs with exploded := true }, none) else (obs, none)
  else if |distZ| < 6/5 then
    if pLaneFor phase cur = obs.lane ∧ ¬(jH > 3/2 ∧ obs.vertical = false) then
      ({ obs with exploded := true }, some obs.type)
    else (obs, none)
  else (obs, none)

/-- The per-tick observations a single obstacle is exposed to: the phase, the
player's continuous lane and jump height, and the obstacle's longitudinal
distance to the player this tick. -/
structure ObsTickEnv where
  phase : GamePhase
  currentLane : ℚ
  jumpHeight : ℚ
  distZ : ℚ

/-- Number of resolution effects in an optional firing. -/
def effCount : Option ObstacleType → ℕ
  | some _ => 1
  | none => 0

/-- Iterate the collision-loop body for one obstacle over a sequence of ticks,
counting how many ticks fired its resolution effect. -/
def obsRun : List ObsTickEnv → ObstacleData → ObstacleData × ℕ
  | [], obs => (obs, 0)
  | e :: es, obs =>
    let r := obstacleStep e.phase e.currentLane e.jumpHeight e.distZ obs
    let rest := obsRun es r.1
    (rest.1, effCount r.2 + rest.2)

lemma obstacleStep_of_exploded (phase : GamePhase) (cur jH distZ : ℚ)
    (obs : ObstacleData) (h : obs.exploded = true) :
    obstacleStep phase cur jH distZ obs = (obs, none) := by
  simp [obstacleStep, h]

lemma obstacleStep_fire_exploded (phase : GamePhase) (cur jH distZ : ℚ)
    (obs : ObstacleData)
    (h : (obstacleStep phase cur jH distZ obs).2 ≠ none) :
    (obstacleStep phase cur jH distZ obs).1.exploded = true := by
  unfold obstacleStep at *
  split_ifs at h ⊢ <;> simp_all

lemma obsRun_of_exploded (envs : List ObsTickEnv) (obs : ObstacleData)
    (h : obs.exploded = true) : obsRun envs obs = (obs, 0) := by
  induction envs with
  | nil => rfl
  | cons e es ih =>
    simp [obsRun, obstacleStep_of_exploded _ _ _ _ _ h, ih, effCount]

lemma obstacleStep_exploded_mono (phase : GamePhase) (cur jH distZ : ℚ)
    (obs : ObstacleData) (h : obs.exploded = true) :
    (obstacleStep phase cur jH distZ obs).1.exploded = true := by
  rw [obstacleStep_of_exploded _ _ _ _ _ h]
  exact h

/-- C1: for every ObstacleInstance, across an arbitrary sequence of ticks, the
resolution effect fires at most once: once the instance is marked resolved
(`exploded`), the early return in the collision loop prevents it from ever
resolving again, even if several ticks observe it inside the collision band. -/
theorem at_most_one_resolution (envs : List ObsTickEnv) (obs : ObstacleData) :
    (obsRun envs obs).2 ≤ 1 := by
  induction envs generalizing obs with
  | nil => simp [obsRun]
  | cons e es ih =>
    by_cases hex : obs.exploded = true
    · rw [obsRun_of_exploded _ _ hex]
      exact Nat.zero_le 1
    · simp only [obsRun]
      rcases hfire : (obstacleStep e.phase e.currentLane e.jumpHeight e.distZ obs).2 with _ | t
      · simpa [hfire, effCount] using ih _
      · have hexp := obstacleStep_fire_exploded e.phase e.currentLane e.jumpHeight e.distZ obs
          (by rw [hfire]; simp)
        rw [obsRun_of_exploded _ _ hexp]
        simp [effCount]

/-- Session-level simulation state carried across ticks by the component's
refs: score, remaining time, health, game state, speed multiplier and its
timer, and the live obstacle records. -/
structure GameSt where
  score : ℚ
  time : ℚ
  health : ℤ
  state : GameState
  speedMult : ℚ
  speedTimer : ℚ
  obstacles : List ObstacleData
  deriving DecidableEq, Repr

/-- Per-tick inputs to the simulation portion of `animate`: the phase, the
clamped frame delta, the player's continuous lane and jump height (integrated
elsewhere in the frame), and each live obstacle's longitudinal distance
`obsWorldPos.z - 4.0` to the player this tick. -/
structure TickEnv where
  phase : GamePhase
  delta : ℚ
  currentLane : ℚ
  jumpHeight : ℚ
  dists : List ℚ

/-- Accumulator for the sequential effect application inside the obstacle
loop: the refs it mutates, plus the pending `setGameState` call (the last call
in a frame wins, taking effect on the next frame). -/
structure HitAcc where
  health : ℤ
  score : ℚ
  speedMult : ℚ
  speedTimer : ℚ
  pending : Option GameState
  obstacles : List ObstacleData

/-- The per-type resolution effects in the hit branch of the obstacle loop:
HEART heals `Math.min(MAX_HEALTH, health + 20)`, SPEED_BOOST adds 500 score,
CLOCK_BLUE sets the speed multiplier to 0.5 for 5 seconds, and every other
type deals 20 damage. -/
def applyEffect (t : ObstacleType) (a : HitAcc) : HitAcc :=
  match t with
  | .HEART => { a with health := min MAX_HEALTH (a.health + 20) }
  | .SPEED_BOOST => { a with score := a.score + 500 }
  | .CLOCK_BLUE => { a with speedMult := 1/2, speedTimer := 5 }
  | _ => { a with health := a.health - 20 }

/-- The tail of the hit branch: apply the resolution effect, then record a
pending GAME_OVER whenever the hit left health at or below zero
(`if (healthRef.current <= 0) setGameState(GameState.GAME_OVER)`). -/
def hitApply (t : ObstacleType) (a : HitAcc) : HitAcc :=
  let a' := applyEffect t a
  if a'.health ≤ 0 then { a' with pending := some GameState.GAME_OVER } else a'

/-- One pass of the obstacle loop body at session level: run the collision
decision (`obstacleStep`) and, if an effect fired, apply it via `hitApply`. -/
def stepObs (phase : GamePhase) (cur jH : ℚ) (a : HitAcc) (p : ObstacleData × ℚ) :
    HitAcc :=
  let r := obstacleStep phase cur jH p.2 p.1
  let a1 :=
    match r.2 with
    | none => a
    | some t => hitApply t a
  { a1 with obstacles := a1.obstacles ++ [r.1] }

/-- One frame of the simulation part of `animate`: the PAUSED early return,
the speed-multiplier countdown (runs in every non-paused state), and — only
while PLAYING — the score accrual `SPEED_BASE * delta * speedMult`, the timer
decrement with its LEVEL_COMPLETE check, and the obstacle collision loop.
A `setGameState` call takes effect at the end of the frame (the component
only re-reads the state ref on the next frame). -/
def tick (env : TickEnv) (st : GameSt) : GameSt :=
  if st.state = GameState.PAUSED then st else
  let delta := env.delta
  let speed := st.speedMult
  let stT :=
    if st.speedTimer > 0 then
      let t := st.speedTimer - delta
      { st with speedTimer := t, speedMult := if t ≤ 0 then 1 else st.speedMult }
    else st
  if st.state = GameState.PLAYING then
    let moveDt := delta * speed
    let dist := SPEED_BASE * moveDt
    let time1 := stT.time - delta
    let pending0 : Option GameState :=
      if time1 ≤ 0 then some GameState.LEVEL_COMPLETE else none
    let a0 : HitAcc :=
      { health := stT.health, score := stT.score + dist,
        speedMult := stT.speedMult, speedTimer := stT.speedTimer,
        pending := pending0, obstacles := [] }
    let a := (stT.obstacles.zip env.dists).foldl
      (stepObs env.phase env.currentLane env.jumpHeight) a0
    { score := a.score, time := time1, health := a.health,
      state := a.pending.getD stT.state,
      speedMult := a.speedMult, speedTimer := a.speedTimer,
      obstacles := a.obstacles }
  else stT

/-- The session state right after `startNewGame` (full reset: score 0,
health `MAX_HEALTH`, timer `PHASE_DURATION`) with the PLAYING transition the
app performs, and whatever obstacles the initial 40 segments spawned. -/
def newGameState (obstacles : List ObstacleData) : GameSt :=
  { score := 0, time := PHASE_DURATION, health := MAX_HEALTH,
    state := GameState.PLAYING, speedMult := 1, speedTimer := 0,
    obstacles := obstacles }

/-- Run a sequence of frames. -/
def runTicks : List TickEnv → GameSt → GameSt
  | [], st => st
  | e :: es, st => runTicks es (tick e st)

/-- Whether an obstacle type's resolution deals damage (everything other than
the three collectibles). -/
def isDamage (t : ObstacleType) : Bool :=
  match t with
  | .HEART => false
  | .SPEED_BOOST => false
  | .CLOCK_BLUE => false
  | _ => true

/-- Number of damage resolutions a frame fires: the collision decision for
each obstacle is independent of the accumulated effects, so this is a pure
count over the obstacle/distance pairs. -/
def damageCount (env : TickEnv) (st : GameSt) : ℕ :=
  ((st.obstacles.zip env.dists).filterMap
    (fun p => (obstacleStep env.phase env.currentLane env.jumpHeight p.2 p.1).2)).countP
    (fun t => isDamage t)

/-- A wall obstacle in lane 0, as spawned by `spawnObstacle`. -/
def wallLane0 : ObstacleData := spawnObstacleData .WALL 0

/-- Six wall obstacles in lane 0 (reachable at spawn: each segment draws up to
two obstacles with independent lane draws, so several segments can each hold
walls in lane 0). -/
def sixWalls : List ObstacleData := List.replicate 6 wallLane0

/-- Frame 1: the first two walls are inside the collision band, the rest far
ahead of the player. -/
def c2Env1 : TickEnv :=
  { phase := .ROUND, delta := 1/100, currentLane := 0, jumpHeight := 0,
    dists := [0, 0, -50, -50, -50, -50] }

/-- Frame 2: walls three and four enter the band. -/
def c2Env2 : TickEnv :=
  { phase := .ROUND, delta := 1/100, currentLane := 0, jumpHeight := 0,
    dists := [3, 3, 0, 0, -50, -50] }

/-- Frame 3: walls five and six enter the band in the same frame. -/
def c2Env3 : TickEnv :=
  { phase := .ROUND, delta := 1/100, currentLane := 0, jumpHeight := 0,
    dists := [3, 3, 3, 3, 0, 0] }

/-- C2 counterexample: starting from a new game, four damage resolutions bring
health to 20, and a frame in which two damage obstacles sit in the collision
band then drives health to -20: damage has no floor at zero, so
`0 <= health` fails. -/
theorem health_lower_bound_counterexample :
    (runTicks [c2Env1, c2Env2, c2Env3] (newGameState sixWalls)).health = -20 ∧
    (runTicks [c2Env1, c2Env2, c2Env3] (newGameState sixWalls)).health < 0 ∧
    (runTicks [c2Env1, c2Env2, c2Env3] (newGameState sixWalls)).state =
      GameState.GAME_OVER := by
  norm_num +decide [runTicks, tick, stepObs, obstacleStep, applyEffect, pLaneFor, jsRound,
    newGameState, sixWalls, wallLane0, spawnObstacleData, collisionWidthOf,
    c2Env1, c2Env2, c2Env3, SPEED_BASE, MAX_HEALTH, PHASE_DURATION,
    List.replicate, List.zip, List.zipWith, List.foldl]

/-- Damage count over an explicit obstacle/distance pair list (what
`damageCount` computes once the state is unfolded). -/
def damageCountL (phase : GamePhase) (cur jH : ℚ) (l : List (ObstacleData × ℚ)) : ℕ :=
  (l.filterMap (fun p => (obstacleStep phase cur jH p.2 p.1).2)).countP
    (fun t => isDamage t)

lemma damageCount_eq (env : TickEnv) (st : GameSt) :
    damageCount env st =
      damageCountL env.phase env.currentLane env.jumpHeight
        (st.obstacles.zip env.dists) := rfl

/-- The session invariant: health within bounds, a multiple of 20, and
strictly positive while the session is still PLAYING. -/
def Inv (st : GameSt) : Prop :=
  0 ≤ st.health ∧ st.health ≤ MAX_HEALTH ∧ 20 ∣ st.health ∧
  (st.state = GameState.PLAYING → 0 < st.health)

lemma applyEffect_pending (t : ObstacleType) (a : HitAcc) :
    (applyEffect t a).pending = a.pending := by
  cases t <;> rfl

lemma applyEffect_health_damage (t : ObstacleType) (a : HitAcc)
    (ht : isDamage t = true) : (applyEffect t a).health = a.health - 20 := by
  cases t <;> first
    | rfl
    | exact absurd ht (by simp [isDamage])

lemma applyEffect_health_nondamage (t : ObstacleType) (a : HitAcc)
    (ht : isDamage t = false) :
    (applyEffect t a).health = a.health ∨
      (applyEffect t a).health = min 100 (a.health + 20) := by
  cases t <;> simp [isDamage] at ht <;> first
    | exact Or.inl rfl
    | exact Or.inr (by simp [applyEffect, MAX_HEALTH])

lemma hitApply_health (t : ObstacleType) (a : HitAcc) :
    (hitApply t a).health = (applyEffect t a).health := by
  simp only [hitApply]
  split_ifs <;> rfl

lemma hitApply_pending (t : ObstacleType) (a : HitAcc) :
    (hitApply t a).pending =
      if (applyEffect t a).health ≤ 0 then some GameState.GAME_OVER
      else a.pending := by
  simp only [hitApply]
  split_ifs with h
  · rfl
  · exact applyEffect_pending t a

lemma stepObs_health_none (phase : GamePhase) (cur jH : ℚ) (a : HitAcc)
    (p : ObstacleData × ℚ) (he : (obstacleStep phase cur jH p.2 p.1).2 = none) :
    (stepObs phase cur jH a p).health = a.health := by
  simp [stepObs, he]

lemma stepObs_health_some (phase : GamePhase) (cur jH : ℚ) (a : HitAcc)
    (p : ObstacleData × ℚ) (t : ObstacleType)
    (he : (obstacleStep phase cur jH p.2 p.1).2 = some t) :
    (stepObs phase cur jH a p).health = (hitApply t a).health := by
  simp [stepObs, he]

lemma stepObs_pending_none (phase : GamePhase) (cur jH : ℚ) (a : HitAcc)
    (p : ObstacleData × ℚ) (he : (obstacleStep phase cur jH p.2 p.1).2 = none) :
    (stepObs phase cur jH a p).pending = a.pending := by
  simp [stepObs, he]

lemma stepObs_pending_some (phase : GamePhase) (cur jH : ℚ) (a : HitAcc)
    (p : ObstacleData × ℚ) (t : ObstacleType)
    (he : (obstacleStep phase cur jH p.2 p.1).2 = some t) :
    (stepObs phase cur jH a p).pending = (hitApply t a).pending := by
  simp [stepObs, he]

lemma foldl_stepObs_inv (phase : GamePhase) (cur jH : ℚ)
    (l : List (ObstacleData × ℚ)) :
    ∀ a : HitAcc, 20 ∣ a.health → 0 ≤ a.health → a.health ≤ 100 →
    (a.pending = some GameState.GAME_OVER ∨ 0 < a.health) →
    (1 ≤ damageCountL phase cur jH l → 0 < a.health) →
    damageCountL phase cur jH l ≤ 1 →
    a.pending ≠ some GameState.PLAYING →
    (20 ∣ (l.foldl (stepObs phase cur jH) a).health ∧
     0 ≤ (l.foldl (stepObs phase cur jH) a).health ∧
     (l.foldl (stepObs phase cur jH) a).health ≤ 100 ∧
     ((l.foldl (stepObs phase cur jH) a).pending = some GameState.GAME_OVER ∨
       0 < (l.foldl (stepObs phase cur jH) a).health) ∧
     (l.foldl (stepObs phase cur jH) a).pending ≠ some GameState.PLAYING) := by
  induction l with
  | nil => intro a h1 h2 h3 h4 _ _ h7; exact ⟨h1, h2, h3, h4, h7⟩
  | cons p rest ih =>
    intro a h1 h2 h3 h4 h5 h6 h7
    simp only [List.foldl_cons]
    rcases he : (obstacleStep phase cur jH p.2 p.1).2 with _ | t
    · have hh := stepObs_health_none phase cur jH a p he
      have hp := stepObs_pending_none phase cur jH a p he
      have hdc : damageCountL phase cur jH (p :: rest) =
          damageCountL phase cur jH rest := by
        simp [damageCountL, List.filterMap_cons, he]
      rw [hdc] at h5 h6
      exact ih _ (by rw [hh]; exact h1) (by rw [hh]; exact h2) (by rw [hh]; exact h3)
        (by rw [hh, hp]; exact h4) (by rw [hh]; exact h5) h6 (by rw [hp]; exact h7)
    · have hh := stepObs_health_some phase cur jH a p t he
      have hp := stepObs_pending_some phase cur jH a p t he
      rw [hitApply_health] at hh
      rw [hitApply_pending] at hp
      have hdc : damageCountL phase cur jH (p :: rest) =
          damageCountL phase cur jH rest + (if isDamage t then 1 else 0) := by
        simp [damageCountL, List.filterMap_cons, he, List.countP_cons]
      rw [hdc] at h5 h6
      rcases hd : isDamage t with _ | _
      · rcases applyEffect_health_nondamage t a hd with hv | hv
        all_goals
          rw [hd] at h5 h6
          simp only [if_neg Bool.false_ne_true, reduceIte] at h5 h6
          rw [hv] at hh hp
          apply ih
          · rw [hh]; omega
          · rw [hh]; omega
          · rw [hh]; omega
          · rw [hh, hp]; split_ifs with hz
            · exact Or.inl rfl
            · rcases h4 with h4 | h4
              · exact Or.inl h4
              · right; omega
          · intro hone; rw [hh]; have := h5 (by omega); omega
          · omega
          · rw [hp]; split_ifs with hz
            · simp
            · exact h7
      · rw [applyEffect_health_damage t a hd] at hh hp
        rw [hd] at h5 h6
        simp only [reduceIte] at h5 h6
        have hpos : 0 < a.health := h5 (by omega)
        have hrest : damageCountL phase cur jH rest = 0 := by omega
        apply ih
        · rw [hh]; omega
        · rw [hh]; omega
        · rw [hh]; omega
        · rw [hh, hp]; split_ifs with hz
          · exact Or.inl rfl
          · right; omega
        · intro hone; rw [hrest] at hone; omega
        · omega
        · rw [hp]; split_ifs with hz
          · simp
          · exact h7

lemma tick_inv (env : TickEnv) (st : GameSt) (hInv : Inv st)
    (hdc : damageCount env st ≤ 1) : Inv (tick env st) := by
  obtain ⟨h0, h100, hdvd, hpl⟩ := hInv
  unfold tick
  split_ifs with hpause htimer hplay hplay
  · exact ⟨h0, h100, hdvd, hpl⟩
  all_goals simp only []
  · -- speed timer active, PLAYING
    have F := foldl_stepObs_inv env.phase env.currentLane env.jumpHeight
      (st.obstacles.zip env.dists)
      { health := st.health,
        score := st.score + SPEED_BASE * (env.delta * st.speedMult),
        speedMult := (if st.speedTimer - env.delta ≤ 0 then 1 else st.speedMult),
        speedTimer := st.speedTimer - env.delta,
        pending := if st.time - env.delta ≤ 0 then some GameState.LEVEL_COMPLETE else none,
        obstacles := [] }
      hdvd h0 (by simpa [MAX_HEALTH] using h100) (Or.inr (hpl hplay))
      (fun _ => hpl hplay) (by rw [damageCount_eq] at hdc; exact hdc)
      (by split_ifs <;> simp)
    refine ⟨F.2.1, by simpa [MAX_HEALTH] using F.2.2.1, F.1, ?_⟩
    intro hps
    rcases hpd : (((st.obstacles.zip env.dists)).foldl
        (stepObs env.phase env.currentLane env.jumpHeight) _).pending with _ | s
    · rcases F.2.2.2.1 with hgo | hpos
      · rw [hpd] at hgo; cases hgo
      · exact hpos
    · exfalso
      simp only [hpd, Option.getD_some] at hps
      rw [hps] at hpd
      exact F.2.2.2.2 hpd
  · exact ⟨h0, h100, hdvd, fun h => hpl (by simpa using h)⟩
  · have F := foldl_stepObs_inv env.phase env.currentLane env.jumpHeight
      (st.obstacles.zip env.dists)
      { health := st.health,
        score := st.score + SPEED_BASE * (env.delta * st.speedMult),
        speedMult := st.speedMult,
        speedTimer := st.speedTimer,
        pending := if st.time - env.delta ≤ 0 then some GameState.LEVEL_COMPLETE else none,
        obstacles := [] }
      hdvd h0 (by simpa [MAX_HEALTH] using h100) (Or.inr (hpl hplay))
      (fun _ => hpl hplay) (by rw [damageCount_eq] at hdc; exact hdc)
      (by split_ifs <;> simp)
    refine ⟨F.2.1, by simpa [MAX_HEALTH] using F.2.2.1, F.1, ?_⟩
    intro hps
    rcases hpd : (((st.obstacles.zip env.dists)).foldl
        (stepObs env.phase env.currentLane env.jumpHeight) _).pending with _ | s
    · rcases F.2.2.2.1 with hgo | hpos
      · rw [hpd] at hgo; cases hgo
      · exact hpos
    · exfalso
      simp only [hpd, Option.getD_some] at hps
      rw [hps] at hpd
      exact F.2.2.2.2 hpd
  · exact ⟨h0, h100, hdvd, fun h => hpl h⟩

lemma runTicks_inv (envs : List TickEnv) :
    ∀ st : GameSt, Inv st →
    (∀ i (h : i < envs.length),
      damageCount (envs.get ⟨i, h⟩) (runTicks (List.take i envs) st) ≤ 1) →
    Inv (runTicks envs st) := by
  induction envs with
  | nil => intro st hInv _; exact hInv
  | cons e es ih =>
    intro st hInv H
    have hd0 : damageCount e st ≤ 1 := by
      have := H 0 (by simp)
      simpa [runTicks] using this
    have h1 : Inv (tick e st) := tick_inv e st hInv hd0
    have H' : ∀ i (h : i < es.length),
        damageCount (es.get ⟨i, h⟩) (runTicks (List.take i es) (tick e st)) ≤ 1 := by
      intro i h
      have := H (i + 1) (by simpa using Nat.succ_lt_succ h)
      simpa [runTicks, List.take_succ_cons] using this
    simpa [runTicks] using ih (tick e st) h1 H'

lemma applyEffect_health_le (t : ObstacleType) (a : HitAcc)
    (h : a.health ≤ 100) : (applyEffect t a).health ≤ 100 := by
  cases t <;> simp [applyEffect, MAX_HEALTH] <;> omega

lemma foldl_stepObs_le100 (phase : GamePhase) (cur jH : ℚ)
    (l : List (ObstacleData × ℚ)) :
    ∀ a : HitAcc, a.health ≤ 100 →
      (l.foldl (stepObs phase cur jH) a).health ≤ 100 := by
  induction l with
  | nil => intro a h; exact h
  | cons p rest ih =>
    intro a h
    simp only [List.foldl_cons]
    rcases he : (obstacleStep phase cur jH p.2 p.1).2 with _ | t
    · exact ih _ (by rw [stepObs_health_none phase cur jH a p he]; exact h)
    · refine ih _ ?_
      rw [stepObs_health_some phase cur jH a p t he, hitApply_health]
      exact applyEffect_health_le t a h

lemma foldl_stepObs_pending_or_pos (phase : GamePhase) (cur jH : ℚ)
    (l : List (ObstacleData × ℚ)) :
    ∀ a : HitAcc,
    (a.pending = some GameState.GAME_OVER ∨ 0 < a.health) →
    ((l.foldl (stepObs phase cur jH) a).pending = some GameState.GAME_OVER ∨
      0 < (l.foldl (stepObs phase cur jH) a).health) := by
  induction l with
  | nil => intro a h; exact h
  | cons p rest ih =>
    intro a h
    simp only [List.foldl_cons]
    rcases he : (obstacleStep phase cur jH p.2 p.1).2 with _ | t
    · refine ih _ ?_
      rw [stepObs_health_none phase cur jH a p he,
        stepObs_pending_none phase cur jH a p he]
      exact h
    · refine ih _ ?_
      rw [stepObs_health_some phase cur jH a p t he, hitApply_health,
        stepObs_pending_some phase cur jH a p t he, hitApply_pending]
      split_ifs with hz
      · exact Or.inl rfl
      · right
        omega

lemma tick_health_le100 (env : TickEnv) (st : GameSt) (h : st.health ≤ 100) :
    (tick env st).health ≤ 100 := by
  unfold tick
  split_ifs with hpause htimer hplay hplay
  · exact h
  · exact foldl_stepObs_le100 env.phase env.currentLane env.jumpHeight _ _ h
  · exact h
  · exact foldl_stepObs_le100 env.phase env.currentLane env.jumpHeight _ _ h
  · exact h

lemma runTicks_health_le100 (envs : List TickEnv) :
    ∀ st : GameSt, st.health ≤ 100 → (runTicks envs st).health ≤ 100 := by
  induction envs with
  | nil => intro st h; exact h
  | cons e es ih =>
    intro st h
    simpa [runTicks] using ih (tick e st) (tick_health_le100 e st h)

lemma tick_game_over_trigger (env : TickEnv) (st : GameSt)
    (hs : st.state = GameState.PLAYING) (hpos : 0 < st.health)
    (hneg : (tick env st).health ≤ 0) :
    (tick env st).state = GameState.GAME_OVER := by
  unfold tick at hneg ⊢
  split_ifs at hneg ⊢ with hpause htimer
  · omega
  · dsimp only at hneg ⊢
    have F := foldl_stepObs_pending_or_pos env.phase env.currentLane
      env.jumpHeight (st.obstacles.zip env.dists)
      { health := st.health,
        score := st.score + SPEED_BASE * (env.delta * st.speedMult),
        speedMult := (if st.speedTimer - env.delta ≤ 0 then 1 else st.speedMult),
        speedTimer := st.speedTimer - env.delta,
        pending := if st.time - env.delta ≤ 0 then some GameState.LEVEL_COMPLETE else none,
        obstacles := [] }
      (Or.inr hpos)
    rcases F with hgo | hpos2
    · rw [hgo]
      rfl
    · omega
  · dsimp only at hneg ⊢
    have F := foldl_stepObs_pending_or_pos env.phase env.currentLane
      env.jumpHeight (st.obstacles.zip env.dists)
      { health := st.health,
        score := st.score + SPEED_BASE * (env.delta * st.speedMult),
        speedMult := st.speedMult,
        speedTimer := st.speedTimer,
        pending := if st.time - env.delta ≤ 0 then some GameState.LEVEL_COMPLETE else none,
        obstacles := [] }
      (Or.inr hpos)
    rcases F with hgo | hpos2
    · rw [hgo]
      rfl
    · omega

/-- C2 amended: (1) health never exceeds 100 in any run from a new game
(HEART heals +20 capped at 100, every other effect leaves health unchanged or
lowers it); (2) health also stays at or above 0 in every run in which each
tick resolves at most one damaging obstacle — without that restriction, a
single tick resolving two damaging obstacles drives health below zero, as the
counterexample shows, because damage subtracts 20 with no floor and the loop
keeps resolving after health reaches 0; (3) whenever a PLAYING tick that
starts with positive health ends with health at or below 0, the session state
is GAME_OVER at the end of that very tick; and (4) once GAME_OVER, no later
tick ever changes the state (never renegotiated). -/
theorem health_bounds_amended :
    (∀ (envs : List TickEnv) (obstacles : List ObstacleData),
      (runTicks envs (newGameState obstacles)).health ≤ MAX_HEALTH) ∧
    (∀ (envs : List TickEnv) (obstacles : List ObstacleData),
      (∀ i (h : i < envs.length),
        damageCount (envs.get ⟨i, h⟩)
          (runTicks (List.take i envs) (newGameState obstacles)) ≤ 1) →
      0 ≤ (runTicks envs (newGameState obstacles)).health) ∧
    (∀ (env : TickEnv) (st : GameSt), st.state = GameState.PLAYING →
      0 < st.health → (tick env st).health ≤ 0 →
      (tick env st).state = GameState.GAME_OVER) ∧
    (∀ (env : TickEnv) (st : GameSt), st.state = GameState.GAME_OVER →
      (tick env st).state = GameState.GAME_OVER) := by
  refine ⟨?_, ?_, tick_game_over_trigger, ?_⟩
  · intro envs obstacles
    have h := runTicks_health_le100 envs (newGameState obstacles)
      (by norm_num [newGameState, MAX_HEALTH])
    simpa [MAX_HEALTH] using h
  · intro envs obstacles H
    have hInv0 : Inv (newGameState obstacles) := by
      refine ⟨by norm_num [newGameState, MAX_HEALTH], le_refl _,
        by norm_num [newGameState, MAX_HEALTH], fun _ => ?_⟩
      norm_num [newGameState, MAX_HEALTH]
    exact (runTicks_inv envs (newGameState obstacles) hInv0 H).1
  · intro env st hs
    unfold tick
    split_ifs with hpause htimer hplay hplay
    · exact hs
    · rw [hs] at hplay; cases hplay
    · exact hs
    · rw [hs] at hplay; cases hplay
    · exact hs

/-- A single frame with one in-band obstacle distance, for the C2 witness. -/
def c2WitnessEnv : TickEnv :=
  { phase := .ROUND, delta := 1/100, currentLane := 0, jumpHeight := 0,
    dists := [0] }

/-- A PLAYING state at health 20 with one wall in the player's lane, used by
the C2 witness to exercise the GAME_OVER trigger on a real damage tick. -/
def c2NearDeathState : GameSt :=
  { score := 0, time := 60, health := 20, state := GameState.PLAYING,
    speedMult := 1, speedTimer := 0, obstacles := [wallLane0] }

/-- Witness for the amended C2 theorem on real ticks: a one-tick run from a
new game hitting one wall (exactly one damage, bringing health to 80) keeps
health within [0, 100], and a damage tick from health 20 that lands on 0
flips the session to GAME_OVER. -/
theorem health_bounds_amended_witness :
    (runTicks [c2WitnessEnv] (newGameState [wallLane0])).health ≤ MAX_HEALTH ∧
    0 ≤ (runTicks [c2WitnessEnv] (newGameState [wallLane0])).health ∧
    (tick c2WitnessEnv c2NearDeathState).state = GameState.GAME_OVER :=
  ⟨health_bounds_amended.1 [c2WitnessEnv] [wallLane0],
   health_bounds_amended.2.1 [c2WitnessEnv] [wallLane0] (by
     intro i h
     have hi : i = 0 := by
       simp only [List.length_cons, List.length_nil] at h
       omega
     subst hi
     norm_num +decide [damageCount, runTicks, newGameState, c2WitnessEnv,
       wallLane0, spawnObstacleData, collisionWidthOf, obstacleStep, pLaneFor,
       jsRound, isDamage, List.zip, List.zipWith, List.filterMap,
       List.countP, List.countP.go]),
   health_bounds_amended.2.2.1 c2WitnessEnv c2NearDeathState rfl
     (by norm_num [c2NearDeathState])
     (by norm_num +decide [tick, c2NearDeathState, c2WitnessEnv, stepObs,
       hitApply, applyEffect, obstacleStep, pLaneFor, jsRound, wallLane0,
       spawnObstacleData, collisionWidthOf, SPEED_BASE, MAX_HEALTH,
       List.zip, List.zipWith, List.foldl])⟩

/-- C3 counterexample: a negative frame delta is NOT clamped — the guard only
checks `isNaN(delta) || delta > 0.1`, so a finite negative delta (and likewise
negative infinity) propagates into physics integration unchanged, violating
`0 <= delta`. -/
theorem delta_clamp_counterexample :
    clampDelta (JSNum.fin (-1)) = JSNum.fin (-1) ∧
    ¬(0 ≤ (-1 : ℚ)) ∧
    clampDelta JSNum.negInf = JSNum.negInf := by
  refine ⟨?_, by norm_num, rfl⟩
  simp only [clampDelta, JSNum.isNaNum, JSNum.gtQ, Bool.false_or]
  rw [decide_eq_false (by norm_num)]
  simp

/-- C3 amended: the guard replaces NaN by the 0.1 default and clamps any delta
greater than 0.1 (including positive infinity) to 0.1, so every nonnegative
finite input delta is propagated within [0, 0.1]; negative deltas, including
negative infinity, pass through the guard unchanged. -/
theorem delta_clamp_amended :
    clampDelta JSNum.nan = JSNum.fin (1/10) ∧
    clampDelta JSNum.posInf = JSNum.fin (1/10) ∧
    (∀ q : ℚ, 0 ≤ q →
      clampDelta (JSNum.fin q) = JSNum.fin (min q (1/10)) ∧
      0 ≤ min q (1/10) ∧ min q (1/10) ≤ 1/10) ∧
    (∀ q : ℚ, q < 0 → clampDelta (JSNum.fin q) = JSNum.fin q) ∧
    clampDelta JSNum.negInf = JSNum.negInf := by
  refine ⟨rfl, rfl, ?_, ?_, rfl⟩
  · intro q hq
    refine ⟨?_, le_min hq (by norm_num), min_le_right _ _⟩
    simp only [clampDelta, JSNum.isNaNum, JSNum.gtQ, Bool.false_or]
    rcases le_or_lt q (1/10) with h | h
    · rw [decide_eq_false (not_lt.mpr h), if_neg (by simp), min_eq_left h]
    · rw [decide_eq_true h, if_pos rfl, min_eq_right h.le]
  · intro q hq
    simp only [clampDelta, JSNum.isNaNum, JSNum.gtQ, Bool.false_or]
    rw [decide_eq_false (by norm_num; linarith), if_neg (by simp)]

/-- Witness for the amended C3 theorem at the concrete input 1/20: a small
nonnegative finite delta passes through unclamped and lies in [0, 0.1]. -/
theorem delta_clamp_amended_witness :
    clampDelta (JSNum.fin (1/20)) = JSNum.fin (min (1/20) (1/10)) ∧
    0 ≤ min (1/20 : ℚ) (1/10) ∧ min (1/20 : ℚ) (1/10) ≤ 1/10 :=
  delta_clamp_amended.2.2.1 (1/20) (by norm_num)

/-- A BALL obstacle in lane 0, exactly as pushed by `spawnObstacle`:
`exploded: false` and, in particular, `params.vertical: false` (the spawn code
never sets `vertical` for any type, BALL included). -/
def ballLane0 : ObstacleData := spawnObstacleData .BALL 0

/-- C4 (code bug): the collision loop's clearance check
`jH > obsHeight && !obs.params.vertical` was written to make BALL
unjumpable ("If vertical (like ball), harder to jump over"), but
`spawnObstacle` hardcodes `vertical: false` for every type, so an airborne
player above the clearance height avoids a BALL in their lane inside the
collision band (first conjunct), while the same BALL hits a grounded
player (second conjunct). -/
theorem ball_vertical_clearance_bug :
    obstacleStep GamePhase.ROUND 0 2 0 ballLane0 = (ballLane0, none) ∧
    obstacleStep GamePhase.ROUND 0 0 0 ballLane0 =
      ({ ballLane0 with exploded := true }, some ObstacleType.BALL) ∧
    ballLane0.vertical = false := by
  refine ⟨?_, ?_, rfl⟩ <;>
    norm_num [obstacleStep, ballLane0, spawnObstacleData, collisionWidthOf,
      pLaneFor, jsRound]

lemma chooseType_iff_HEART (r : ℚ) (h0 : 0 ≤ r) (h1 : r ≤ 1) :
    chooseType r = .HEART ↔ 95/100 < r := by
  unfold chooseType
  split_ifs <;> constructor <;> intro h <;>
    first
      | rfl
      | assumption
      | linarith
      | (constructor <;> linarith)
      | (exfalso; linarith)
      | (exfalso; obtain ⟨hc1, hc2⟩ := h; linarith)
      | (cases h)

lemma chooseType_iff_SPEED_BOOST (r : ℚ) (h0 : 0 ≤ r) (h1 : r ≤ 1) :
    chooseType r = .SPEED_BOOST ↔ 90/100 < r ∧ r ≤ 95/100 := by
  unfold chooseType
  split_ifs <;> constructor <;> intro h <;>
    first
      | rfl
      | assumption
      | linarith
      | (constructor <;> linarith)
      | (exfalso; linarith)
      | (exfalso; obtain ⟨hc1, hc2⟩ := h; linarith)
      | (cases h)

lemma chooseType_iff_CLOCK_BLUE (r : ℚ) (h0 : 0 ≤ r) (h1 : r ≤ 1) :
    chooseType r = .CLOCK_BLUE ↔ 85/100 < r ∧ r ≤ 90/100 := by
  unfold chooseType
  split_ifs <;> constructor <;> intro h <;>
    first
      | rfl
      | assumption
      | linarith
      | (constructor <;> linarith)
      | (exfalso; linarith)
      | (exfalso; obtain ⟨hc1, hc2⟩ := h; linarith)
      | (cases h)

lemma chooseType_iff_BULLET (r : ℚ) (h0 : 0 ≤ r) (h1 : r ≤ 1) :
    chooseType r = .BULLET ↔ 75/100 < r ∧ r ≤ 85/100 := by
  unfold chooseType
  split_ifs <;> constructor <;> intro h <;>
    first
      | rfl
      | assumption
      | linarith
      | (constructor <;> linarith)
      | (exfalso; linarith)
      | (exfalso; obtain ⟨hc1, hc2⟩ := h; linarith)
      | (cases h)

lemma chooseType_iff_EXTRUDING (r : ℚ) (h0 : 0 ≤ r) (h1 : r ≤ 1) :
    chooseType r = .EXTRUDING ↔ 65/100 < r ∧ r ≤ 75/100 := by
  unfold chooseType
  split_ifs <;> constructor <;> intro h <;>
    first
      | rfl
      | assumption
      | linarith
      | (constructor <;> linarith)
      | (exfalso; linarith)
      | (exfalso; obtain ⟨hc1, hc2⟩ := h; linarith)
      | (cases h)

lemma chooseType_iff_WALL (r : ℚ) (h0 : 0 ≤ r) (h1 : r ≤ 1) :
    chooseType r = .WALL ↔ 55/100 < r ∧ r ≤ 65/100 := by
  unfold chooseType
  split_ifs <;> constructor <;> intro h <;>
    first
      | rfl
      | assumption
      | linarith
      | (constructor <;> linarith)
      | (exfalso; linarith)
      | (exfalso; obtain ⟨hc1, hc2⟩ := h; linarith)
      | (cases h)

lemma chooseType_iff_DOOR (r : ℚ) (h0 : 0 ≤ r) (h1 : r ≤ 1) :
    chooseType r = .DOOR ↔ 40/100 < r ∧ r ≤ 55/100 := by
  unfold chooseType
  split_ifs <;> constructor <;> intro h <;>
    first
      | rfl
      | assumption
      | linarith
      | (constructor <;> linarith)
      | (exfalso; linarith)
      | (exfalso; obtain ⟨hc1, hc2⟩ := h; linarith)
      | (cases h)

lemma chooseType_iff_BALL (r : ℚ) (h0 : 0 ≤ r) (h1 : r ≤ 1) :
    chooseType r = .BALL ↔ 25/100 < r ∧ r ≤ 40/100 := by
  unfold chooseType
  split_ifs <;> constructor <;> intro h <;>
    first
      | rfl
      | assumption
      | linarith
      | (constructor <;> linarith)
      | (exfalso; linarith)
      | (exfalso; obtain ⟨hc1, hc2⟩ := h; linarith)
      | (cases h)

lemma chooseType_iff_SIMPLE (r : ℚ) (h0 : 0 ≤ r) (h1 : r ≤ 1) :
    chooseType r = .SIMPLE ↔ r ≤ 25/100 := by
  unfold chooseType
  split_ifs <;> constructor <;> intro h <;>
    first
      | rfl
      | assumption
      | linarith
      | (constructor <;> linarith)
      | (exfalso; linarith)
      | (exfalso; obtain ⟨hc1, hc2⟩ := h; linarith)
      | (cases h)

lemma chooseType_ne_INSTA_DEATH (r : ℚ) : chooseType r ≠ .INSTA_DEATH := by
  unfold chooseType
  split_ifs <;> simp

/-- C5: the cumulative-probability table in `spawnObstacle`. Each of the nine
spawnable types is selected exactly on its interval of the unit draw — HEART
(0.95,1], SPEED_BOOST (0.90,0.95], CLOCK_BLUE/CLOCK_SLOW (0.85,0.90], BULLET
(0.75,0.85], EXTRUDING (0.65,0.75], WALL (0.55,0.65], DOOR (0.40,0.55], BALL
(0.25,0.40], SIMPLE [0,0.25] — so all nine are reachable and the relative
ordering and weighting of the table is preserved (INSTA_DEATH, though present
in the enum, is never selected by the table). -/
theorem spawn_type_table (r : ℚ) (h0 : 0 ≤ r) (h1 : r ≤ 1) :
    (chooseType r = .HEART ↔ 95/100 < r) ∧
    (chooseType r = .SPEED_BOOST ↔ 90/100 < r ∧ r ≤ 95/100) ∧
    (chooseType r = .CLOCK_BLUE ↔ 85/100 < r ∧ r ≤ 90/100) ∧
    (chooseType r = .BULLET ↔ 75/100 < r ∧ r ≤ 85/100) ∧
    (chooseType r = .EXTRUDING ↔ 65/100 < r ∧ r ≤ 75/100) ∧
    (chooseType r = .WALL ↔ 55/100 < r ∧ r ≤ 65/100) ∧
    (chooseType r = .DOOR ↔ 40/100 < r ∧ r ≤ 55/100) ∧
    (chooseType r = .BALL ↔ 25/100 < r ∧ r ≤ 40/100) ∧
    (chooseType r = .SIMPLE ↔ r ≤ 25/100) ∧
    chooseType r ≠ .INSTA_DEATH :=
  ⟨chooseType_iff_HEART r h0 h1, chooseType_iff_SPEED_BOOST r h0 h1,
   chooseType_iff_CLOCK_BLUE r h0 h1, chooseType_iff_BULLET r h0 h1,
   chooseType_iff_EXTRUDING r h0 h1, chooseType_iff_WALL r h0 h1,
   chooseType_iff_DOOR r h0 h1, chooseType_iff_BALL r h0 h1,
   chooseType_iff_SIMPLE r h0 h1, chooseType_ne_INSTA_DEATH r⟩

/-- Witness for C5 at concrete draws: each of the nine intervals selects its
type, so every type in the table is reachable. -/
theorem spawn_type_table_witness :
    chooseType (97/100) = .HEART ∧
    chooseType (92/100) = .SPEED_BOOST ∧
    chooseType (87/100) = .CLOCK_BLUE ∧
    chooseType (80/100) = .BULLET ∧
    chooseType (70/100) = .EXTRUDING ∧
    chooseType (60/100) = .WALL ∧
    chooseType (50/100) = .DOOR ∧
    chooseType (30/100) = .BALL ∧
    chooseType (10/100) = .SIMPLE :=
  ⟨(spawn_type_table (97/100) (by norm_num) (by norm_num)).1.mpr (by norm_num),
   (spawn_type_table (92/100) (by norm_num) (by norm_num)).2.1.mpr (by norm_num),
   (spawn_type_table (87/100) (by norm_num) (by norm_num)).2.2.1.mpr (by norm_num),
   (spawn_type_table (80/100) (by norm_num) (by norm_num)).2.2.2.1.mpr (by norm_num),
   (spawn_type_table (70/100) (by norm_num) (by norm_num)).2.2.2.2.1.mpr (by norm_num),
   (spawn_type_table (60/100) (by norm_num) (by norm_num)).2.2.2.2.2.1.mpr (by norm_num),
   (spawn_type_table (50/100) (by norm_num) (by norm_num)).2.2.2.2.2.2.1.mpr (by norm_num),
   (spawn_type_table (30/100) (by norm_num) (by norm_num)).2.2.2.2.2.2.2.1.mpr (by norm_num),
   (spawn_type_table (10/100) (by norm_num) (by norm_num)).2.2.2.2.2.2.2.2.1.mpr (by norm_num)⟩

/-- A wall obstacle in lane 11, as spawned in a 12-lane phase. -/
def wallLane11 : ObstacleData := spawnObstacleData .WALL 11

/-- C6 counterexample: in the TUNNEL_GLOWING (SQUARE) phase — a CYCLIC
topology — the player's rounded continuous lane is compared unwrapped: with
continuous lane -0.6 (reachable transiently while easing from lane 0 toward
lane 11 the short way around), the computed player lane is -1, which is
outside the 12-lane space; wrapped it would be 11 and would match the lane-11
obstacle, but the code fires no resolution. The wrap is applied only when the
phase is ROUND. -/
theorem lane_wrap_counterexample :
    pLaneFor GamePhase.TUNNEL_GLOWING (-(3/5)) = -1 ∧
    jsRound (-(3/5)) % 12 = 11 ∧
    wallLane11.lane = 11 ∧
    (obstacleStep GamePhase.TUNNEL_GLOWING (-(3/5)) 0 0 wallLane11).2 = none ∧
    pLaneFor GamePhase.ROUND (-(3/5)) = 11 := by
  have hr : jsRound (-(3/5) : ℚ) = -1 := by norm_num [jsRound]
  refine ⟨?_, ?_, rfl, ?_, ?_⟩
  · simp [pLaneFor, hr]
  · rw [hr]; decide
  · have hpl : pLaneFor GamePhase.TUNNEL_GLOWING (-(3/5)) = -1 := by
      simp [pLaneFor, hr]
    norm_num [obstacleStep, hpl, wallLane11, spawnObstacleData]
  · simp only [pLaneFor, hr]
    decide

/-- C6 amended: the wrap of the rounded continuous lane into the 12-lane space
happens only for the ROUND (TUBE) phase — there, for any rounded lane at least
-12, the result equals the lane modulo 12 and lies in [0, 12) — while for both
SQUARE tunnel phases (and FLAT) the rounded lane is compared without any
normalization. -/
theorem lane_normalization_amended :
    (∀ q : ℚ, -12 ≤ jsRound q →
      pLaneFor GamePhase.ROUND q = jsRound q % 12 ∧
      0 ≤ pLaneFor GamePhase.ROUND q ∧ pLaneFor GamePhase.ROUND q < 12) ∧
    (∀ q : ℚ, pLaneFor GamePhase.TUNNEL_GLOWING q = jsRound q ∧
      pLaneFor GamePhase.TUNNEL_CLEAN q = jsRound q ∧
      pLaneFor GamePhase.FLAT q = jsRound q) := by
  constructor
  · intro q hq
    have key : pLaneFor GamePhase.ROUND q = jsRound q % 12 := by
      simp only [pLaneFor, reduceIte]
      rcases lt_or_le (jsRound q) 0 with h | h
      · rw [if_pos h, Int.tmod_eq_emod (by omega) (by omega)]
        omega
      · rw [if_neg (not_lt.mpr h), Int.tmod_eq_emod h (by omega)]
    exact ⟨key, by rw [key]; omega, by rw [key]; omega⟩
  · intro q
    refine ⟨?_, ?_, ?_⟩ <;> simp [pLaneFor]

/-- Witness for the amended C6 theorem: at continuous lane -0.6 the ROUND
phase wraps the rounded lane -1 to 11, inside [0, 12). -/
theorem lane_normalization_amended_witness :
    pLaneFor GamePhase.ROUND (-(3/5)) = jsRound (-(3/5)) % 12 ∧
    0 ≤ pLaneFor GamePhase.ROUND (-(3/5)) ∧
    pLaneFor GamePhase.ROUND (-(3/5)) < 12 :=
  lane_normalization_amended.1 (-(3/5)) (by norm_num [jsRound])

/-- Segment recycling in `animate`, over the list of segment `position.z`
values (front segment first, as in `segmentsRef`): when the front segment has
scrolled past `z > 100`, it is shifted off and one new segment is appended
whose `position.z` is the current last segment's minus `SEGMENT_LENGTH`
(`spawnSegment(-last.position.z + SEGMENT_LENGTH)` with
`g.position.z = -zPos`). -/
def recycleStep (segs : List ℚ) : List ℚ :=
  match segs with
  | [] => []
  | z :: rest =>
    if z > 100 then
      match rest.getLast? with
      | some l => rest ++ [l - SEGMENT_LENGTH]
      | none => rest
    else z :: rest

/-- One PLAYING frame of the segment window: every segment scrolls forward by
the frame distance, then at most one recycle fires. -/
def segTick (d : ℚ) (segs : List ℚ) : List ℚ :=
  recycleStep (segs.map (fun z => z + d))

/-- The segment window spawned by `resetGame`:
`for(let i=-10; i<30; i++) spawnSegment(i * SEGMENT_LENGTH)`, with
`g.position.z = -zPos`, i.e. 40 segments at z = -8i for i = -10..29. -/
def initialSegments : List ℚ :=
  (List.range 40).map (fun k => -(((k : ℤ) - 10 : ℤ) : ℚ) * SEGMENT_LENGTH)

/-- Fold a sequence of per-frame scroll distances over the segment window. -/
def segRun (ds : List ℚ) (segs : List ℚ) : List ℚ :=
  ds.foldl (fun s d => segTick d s) segs

lemma recycleStep_length (segs : List ℚ) (h : 2 ≤ segs.length) :
    (recycleStep segs).length = segs.length := by
  match segs with
  | [] => simp at h
  | z :: rest =>
    have hrest : rest ≠ [] := by
      intro hr
      rw [hr] at h
      simp at h
    simp only [recycleStep]
    split_ifs with hz
    · rcases List.getLast?_eq_getLast rest hrest with hl
      rw [hl]
      simp
    · rfl

lemma segTick_length (d : ℚ) (segs : List ℚ) (h : 2 ≤ segs.length) :
    (segTick d segs).length = segs.length := by
  unfold segTick
  rw [recycleStep_length _ (by simpa using h)]
  simp

/-- C7: after any number of recycle events (any sequence of per-frame scroll
distances), the number of live segments is constant and equal to the initial
spawn count of 40: each recycle retires exactly the front segment once it
crosses the z > 100 behind-camera threshold and appends exactly one new
segment at the far end. -/
theorem segment_window_invariant (ds : List ℚ) :
    (segRun ds initialSegments).length = 40 := by
  have hlen : ∀ (l : List ℚ) (dss : List ℚ), l.length = 40 →
      (segRun dss l).length = 40 := by
    intro l dss
    induction dss generalizing l with
    | nil => intro h; simpa [segRun] using h
    | cons d rest ih =>
      intro h
      have h1 : (segTick d l).length = 40 := by
        rw [segTick_length d l (by omega)]
        exact h
      simpa [segRun] using ih (segTick d l) h1
  exact hlen initialSegments ds (by rfl)

/-- The lane change handler `changeLane(dir)`: on FLAT the target is clamped
to [-3, 3]; otherwise the limit is 12 (ROUND and both tunnel phases) and the
target wraps: below 0 it becomes limit-1, at or above the limit it becomes 0. -/
def changeLane (phase : GamePhase) (target dir : ℤ) : ℤ :=
  let next := target + dir
  if phase = GamePhase.FLAT then
    let n1 := if next < -3 then -3 else next
    if n1 > 3 then 3 else n1
  else
    let limit : ℤ := if phase = GamePhase.ROUND then LANE_COUNT_ROUND else 12
    let n1 := if next < 0 then limit - 1 else next
    if n1 ≥ limit then 0 else n1

/-- C8: for CYCLIC phases a single lane-change step from a valid lane equals
addition modulo 12 (so lane 11 + 1 wraps to 0), right followed by left returns
to the starting lane; for FLAT the step clamps to [-3, 3], and in particular
moving right from lane +3 stays at +3. -/
theorem lane_change_spec :
    (∀ (phase : GamePhase) (L dir : ℤ), phase ≠ GamePhase.FLAT →
      0 ≤ L → L < 12 → (dir = 1 ∨ dir = -1) →
      changeLane phase L dir = (L + dir) % 12) ∧
    (∀ (phase : GamePhase) (L : ℤ), phase ≠ GamePhase.FLAT →
      0 ≤ L → L < 12 →
      changeLane phase (changeLane phase L 1) (-1) = L) ∧
    (∀ L dir : ℤ, -3 ≤ L → L ≤ 3 → (dir = 1 ∨ dir = -1) →
      changeLane GamePhase.FLAT L dir = max (-3) (min 3 (L + dir))) ∧
    changeLane GamePhase.FLAT 3 1 = 3 := by
  have hlim : ∀ phase : GamePhase, phase ≠ GamePhase.FLAT →
      changeLane phase = fun target dir =>
        (let next := target + dir
         let n1 := if next < 0 then (12 : ℤ) - 1 else next
         if n1 ≥ 12 then 0 else n1) := by
    intro phase hp
    funext target dir
    cases phase <;> simp_all [changeLane, LANE_COUNT_ROUND]
  refine ⟨?_, ?_, ?_, ?_⟩
  · intro phase L dir hp h0 h12 hdir
    rw [hlim phase hp]
    dsimp only
    rcases hdir with h | h <;> subst h <;> split_ifs <;> omega
  · intro phase L hp h0 h12
    rw [hlim phase hp]
    dsimp only
    split_ifs <;> omega
  · intro L dir h3 h3' hdir
    simp only [changeLane, reduceIte]
    rcases hdir with h | h <;> subst h <;> split_ifs <;> omega
  · simp only [changeLane, reduceIte]
    norm_num

/-- Witness for C8 at concrete lanes: ROUND lane 11 + 1 wraps to 0, the
round trip from lane 5 returns to 5, and FLAT clamps 3 + 1 to 3. -/
theorem lane_change_spec_witness :
    changeLane GamePhase.ROUND 11 1 = (11 + 1) % 12 ∧
    changeLane GamePhase.ROUND (changeLane GamePhase.ROUND 5 1) (-1) = 5 ∧
    changeLane GamePhase.FLAT 3 1 = max (-3) (min 3 (3 + 1)) :=
  ⟨lane_change_spec.1 GamePhase.ROUND 11 1 (by simp) (by norm_num) (by norm_num)
      (Or.inl rfl),
   lane_change_spec.2.1 GamePhase.ROUND 5 (by simp) (by norm_num) (by norm_num),
   lane_change_spec.2.2.1 3 1 (by norm_num) (by norm_num) (Or.inl rfl)⟩

/-- C9 counterexample: the four longitudinal sub-slots are 1.5, 4.5, 7.5 and
10.5 (tileRow * LANE_WIDTH + LANE_WIDTH/2 for tileRow 0..3), but the segment
span is SEGMENT_LENGTH = 8, so the fourth slot lies beyond the segment's span;
and the lane and slot draws are independent per obstacle, so two obstacles of
the same segment can land in the same lane and same slot (here from distinct
draws), i.e. they overlap. -/
theorem obstacle_placement_counterexample :
    obstacleZPos (9/10) = 21/2 ∧
    SEGMENT_LENGTH < obstacleZPos (9/10) ∧
    laneOf GamePhase.ROUND (1/24) = laneOf GamePhase.ROUND (1/13) ∧
    obstacleZPos (1/8) = obstacleZPos (2/9) ∧
    (1/24 : ℚ) ≠ 1/13 ∧ (1/8 : ℚ) ≠ 2/9 := by
  refine ⟨?_, ?_, ?_, ?_, by norm_num, by norm_num⟩ <;>
    norm_num +decide [obstacleZPos, tileRowOf, laneOf, LANE_WIDTH, SEGMENT_LENGTH]

/-- C9 amended: the spawn lane is uniform over the topology's valid range —
on FLAT it always lies in [-3, 3] and each lane's preimage is a length-1/7
interval of the unit draw; on the 12-lane phases it always lies in [0, 11]
and each lane's preimage is a length-1/12 interval — and the longitudinal
offset is one of the 4 fixed sub-slots 1.5, 4.5, 7.5, 10.5, the last of which
extends beyond the 8-unit segment span; nothing prevents two obstacles of one
segment from drawing the same lane and slot. -/
theorem obstacle_placement_amended :
    (∀ r : ℚ, 0 ≤ r → r < 1 →
      -3 ≤ laneOf GamePhase.FLAT r ∧ laneOf GamePhase.FLAT r ≤ 3) ∧
    (∀ (phase : GamePhase) (r : ℚ), 0 ≤ r → r < 1 → phase ≠ GamePhase.FLAT →
      0 ≤ laneOf phase r ∧ laneOf phase r < 12) ∧
    (∀ k : ℤ, -3 ≤ k → k ≤ 3 → ∀ r : ℚ, 0 ≤ r → r < 1 →
      (laneOf GamePhase.FLAT r = k ↔
        ((k : ℚ) + 3) / 7 ≤ r ∧ r < ((k : ℚ) + 4) / 7)) ∧
    (∀ k : ℤ, 0 ≤ k → k < 12 →
      ∀ (phase : GamePhase) (r : ℚ), 0 ≤ r → r < 1 → phase ≠ GamePhase.FLAT →
      (laneOf phase r = k ↔ (k : ℚ) / 12 ≤ r ∧ r < ((k : ℚ) + 1) / 12)) ∧
    (∀ r : ℚ, 0 ≤ r → r < 1 →
      obstacleZPos r = 3/2 ∨ obstacleZPos r = 9/2 ∨ obstacleZPos r = 15/2 ∨
        obstacleZPos r = 21/2) := by
  refine ⟨?_, ?_, ?_, ?_, ?_⟩
  · intro r h0 h1
    have ha : (0 : ℤ) ≤ ⌊r * 7⌋ := Int.floor_nonneg.mpr (by linarith)
    have hb : ⌊r * 7⌋ < 7 := Int.floor_lt.mpr (by push_cast; linarith)
    rw [laneOf, if_pos rfl]
    omega
  · intro phase r h0 h1 hp
    have ha : (0 : ℤ) ≤ ⌊r * 12⌋ := Int.floor_nonneg.mpr (by linarith)
    have hb : ⌊r * 12⌋ < 12 := Int.floor_lt.mpr (by push_cast; linarith)
    rw [laneOf, if_neg hp]
    omega
  · intro k hk1 hk2 r h0 h1
    rw [laneOf, if_pos rfl]
    constructor
    · intro h
      have hf : ⌊r * 7⌋ = k + 3 := by omega
      rw [Int.floor_eq_iff] at hf
      push_cast at hf
      exact ⟨by linarith [hf.1], by linarith [hf.2]⟩
    · intro h
      have hf : ⌊r * 7⌋ = k + 3 := by
        rw [Int.floor_eq_iff]
        push_cast
        exact ⟨by linarith [h.1], by linarith [h.2]⟩
      omega
  · intro k hk1 hk2 phase r h0 h1 hp
    rw [laneOf, if_neg hp]
    constructor
    · intro h
      rw [Int.floor_eq_iff] at h
      push_cast at h
      exact ⟨by linarith [h.1], by linarith [h.2]⟩
    · intro h
      rw [Int.floor_eq_iff]
      push_cast
      exact ⟨by linarith [h.1], by linarith [h.2]⟩
  · intro r h0 h1
    have ha : (0 : ℤ) ≤ ⌊r * 4⌋ := Int.floor_nonneg.mpr (by linarith)
    have hb : ⌊r * 4⌋ < 4 := Int.floor_lt.mpr (by push_cast; linarith)
    have hc : ⌊r * 4⌋ = 0 ∨ ⌊r * 4⌋ = 1 ∨ ⌊r * 4⌋ = 2 ∨ ⌊r * 4⌋ = 3 := by omega
    simp only [obstacleZPos, tileRowOf, LANE_WIDTH]
    rcases hc with h | h | h | h <;> rw [h] <;> norm_num

/-- Witness for the amended C9 theorem at concrete draws: lane 0 of the FLAT
range via its interval, and the draw 0 yields the first sub-slot. -/
theorem obstacle_placement_amended_witness :
    (laneOf GamePhase.FLAT (1/2) = 0 ↔
      ((0 : ℚ) + 3) / 7 ≤ 1/2 ∧ (1/2 : ℚ) < ((0 : ℚ) + 4) / 7) ∧
    (obstacleZPos 0 = 3/2 ∨ obstacleZPos 0 = 9/2 ∨ obstacleZPos 0 = 15/2 ∨
      obstacleZPos 0 = 21/2) :=
  ⟨by
    have h := obstacle_placement_amended.2.2.1 0 (by norm_num) (by norm_num)
      (1/2) (by norm_num) (by norm_num)
    simpa using h,
   obstacle_placement_amended.2.2.2.2 0 (by norm_num) (by norm_num)⟩

/-- A DOOR obstacle in lane 5, as spawned: collisionWidth 2.0. -/
def doorLane5 : ObstacleData := spawnObstacleData .DOOR 5

/-- C10: collision resolution never reads the stored collisionWidth — the
outcome of the per-obstacle collision decision (the fired effect and the
resolved flag) is identical for any value of the width field — and the hit
test is exact integer lane equality, so a non-resolved DOOR inside the
collision band with clearance not applying is hit exactly when the player's
computed lane equals the DOOR's single stored lane: despite collisionWidth 2.0
(versus 1.0 for every other type), a DOOR behaves like a width-1 obstacle and
never blocks two adjacent lanes. -/
theorem collision_width_unused :
    (∀ (phase : GamePhase) (cur jH distZ w : ℚ) (obs : ObstacleData),
      (obstacleStep phase cur jH distZ { obs with width := w }).2 =
        (obstacleStep phase cur jH distZ obs).2 ∧
      (obstacleStep phase cur jH distZ { obs with width := w }).1.exploded =
        (obstacleStep phase cur jH distZ obs).1.exploded) ∧
    collisionWidthOf ObstacleType.DOOR = 2 ∧
    (∀ t : ObstacleType, t ≠ ObstacleType.DOOR → collisionWidthOf t = 1) ∧
    (∀ (phase : GamePhase) (cur jH distZ : ℚ) (door : ObstacleData),
      door.exploded = false → ¬(distZ > 2) → |distZ| < 6/5 →
      ¬(jH > 3/2 ∧ door.vertical = false) →
      ((obstacleStep phase cur jH distZ door).2 = some door.type ↔
        pLaneFor phase cur = door.lane)) := by
  refine ⟨?_, rfl, ?_, ?_⟩
  · intro phase cur jH distZ w obs
    obtain ⟨t, lane, wid, ex, vert⟩ := obs
    constructor <;> (simp only [obstacleStep]; split_ifs <;> rfl)
  · intro t ht
    rw [collisionWidthOf, if_neg ht]
  · intro phase cur jH distZ door hex h2 hband hcl
    rw [obstacleStep, if_neg (by simp [hex]), if_neg h2, if_pos hband]
    split_ifs with hhit
    · simp only [Option.some.injEq, true_iff]
      exact hhit.1
    · simp only [reduceCtorEq, false_iff]
      intro hl
      exact hhit ⟨hl, hcl⟩

/-- Witness for C10 at a concrete DOOR: in ROUND phase with the player's
continuous lane 5 on the ground, the hit fires exactly because the computed
lane equals the DOOR's lane. -/
theorem collision_width_unused_witness :
    (obstacleStep GamePhase.ROUND 5 0 0 doorLane5).2 = some doorLane5.type ↔
      pLaneFor GamePhase.ROUND 5 = doorLane5.lane :=
  collision_width_unused.2.2.2 GamePhase.ROUND 5 0 0 doorLane5 rfl (by norm_num)
    (by norm_num) (by norm_num)

end RunningBird
